import Mathlib

/-!
# Verification of the arcadepay balance-mutation and redemption core

Shallow embedding of the server core of the `arcadepay` repository:
the Drizzle/Postgres storage layer (`src/server/storage.ts`, class
`DbStorage`) and the Express route handlers that drive it
(`src/server/routes.ts`), over the schema of `src/shared/schema.ts`.

The database is modelled as an explicit `Store` value holding the rows of
each table as a list.  Machine numbers (`integer` columns, JS numbers used
as integers) are modelled as `Int`; the `decimal` column
`transactions.amount` (read back through `parseFloat`) is modelled as `ℚ`.
Timestamps are modelled as `Nat`.  Database-generated UUIDs, `Date.now()`,
and `Math.random()` suffixes are passed in as explicit parameters.  A
`db.transaction` block that throws is a rollback: the operation returns an
error and the caller keeps the pre-call `Store`.
-/

namespace ArcadePay

/-- Row of the `users` table (`schema.ts`, `users`). -/
structure User where
  id : String
  email : String
  username : String
  password : String
  role : String
  coinBalance : Int
  pointBalance : Int
  level : Int
  createdAt : Nat
  deriving DecidableEq, Repr

/-- The only shape of `transactions.metadata` written by the core
(`storage.ts` line 431: `{ rewardId, redemptionId }`); the column is
`jsonb` and the other writers pass no metadata. -/
structure TxMetadata where
  rewardId : String
  redemptionId : String
  deriving DecidableEq, Repr

/-- Row of the `transactions` table (`schema.ts`, `transactions`).
`amount` is a nullable decimal column, modelled as `Option ℚ`. -/
structure Transaction where
  id : String
  userId : String
  type : String
  amount : Option ℚ
  coinsAdded : Int
  pointsEarned : Int
  description : String
  status : String
  metadata : Option TxMetadata
  createdAt : Nat
  deriving DecidableEq, Repr

/-- Row of the `promotions` table (`schema.ts`, `promotions`). -/
structure Promotion where
  id : String
  title : String
  description : String
  type : String
  value : Int
  isActive : Bool
  startDate : Nat
  endDate : Nat
  maxRedemptions : Option Int
  currentRedemptions : Int
  emoji : String
  createdAt : Nat
  deriving DecidableEq, Repr

/-- Row of the `promotion_redemptions` table. -/
structure PromotionRedemption where
  id : String
  userId : String
  promotionId : String
  pointsEarned : Int
  coinsEarned : Int
  redeemedAt : Nat
  deriving DecidableEq, Repr

/-- Row of the `rewards` table. -/
structure Reward where
  id : String
  title : String
  description : String
  imageUrl : Option String
  pointsRequired : Int
  stock : Int
  isActive : Bool
  category : String
  emoji : String
  createdAt : Nat
  updatedAt : Nat
  deriving DecidableEq, Repr

/-- Row of the `reward_redemptions` table. -/
structure RewardRedemption where
  id : String
  userId : String
  rewardId : String
  pointsSpent : Int
  status : String
  redemptionCode : Option String
  claimedAt : Nat
  completedAt : Option Nat
  notes : Option String
  deriving DecidableEq, Repr

/-- Row of the `admin_actions` table.  The free-form `jsonb` metadata
column is not modelled; no claim concerns it. -/
structure AdminAction where
  id : String
  adminId : String
  targetUserId : Option String
  action : String
  description : String
  createdAt : Nat
  deriving DecidableEq, Repr

/-- The whole database state: one list of rows per table. -/
structure Store where
  users : List User
  transactions : List Transaction
  promotions : List Promotion
  promotionRedemptions : List PromotionRedemption
  rewards : List Reward
  rewardRedemptions : List RewardRedemption
  adminActions : List AdminAction
  deriving DecidableEq, Repr

/-- The typed errors thrown by the core, one constructor per distinct
thrown `Error` message / early HTTP error response. -/
inductive ApiError
  | userNotFound
  | rewardNotFound
  | rewardOutOfStock
  | insufficientPoints
  | promotionNotFoundOrExpired
  | alreadyRedeemed
  | rewardNotAvailable
  | validation
  | userAlreadyExists
  deriving DecidableEq, Repr

/-- `DbStorage.getUser` (storage.ts 94-97): `select … where id = … limit 1`. -/
def getUser (s : Store) (id : String) : Option User :=
  s.users.find? (fun u => u.id == id)

/-- `DbStorage.getUserByEmail` (storage.ts 99-102). -/
def getUserByEmail (s : Store) (email : String) : Option User :=
  s.users.find? (fun u => u.email == email)

/-- `DbStorage.getRewardById` (storage.ts 349-355). -/
def getRewardById (s : Store) (id : String) : Option Reward :=
  s.rewards.find? (fun r => r.id == id)

/-- `DbStorage.updateUserBalance` (storage.ts 114-131): fetch the user,
throw `"User not found"` if absent, otherwise write
`coinBalance := old + coinDelta`, `pointBalance := old + pointDelta`
(plain addition, no clamp) and return the updated row. -/
def updateUserBalance (s : Store) (userId : String) (coinDelta pointDelta : Int) :
    Except ApiError (User × Store) :=
  match getUser s userId with
  | none => .error .userNotFound
  | some user =>
    let updated : User :=
      { user with
        coinBalance := user.coinBalance + coinDelta
        pointBalance := user.pointBalance + pointDelta }
    .ok (updated,
      { s with users := s.users.map (fun u => if u.id == userId then updated else u) })

/-- `DbStorage.createTransaction` (storage.ts 137-140), with the
database-generated id and `createdAt` passed in explicitly. -/
def createTransaction (s : Store) (tx : Transaction) : Store :=
  { s with transactions := s.transactions ++ [tx] }

/-- `DbStorage.getActivePromotions` (storage.ts 195-208):
`isActive = true AND startDate <= now AND now <= endDate`. -/
def getActivePromotions (s : Store) (now : Nat) : List Promotion :=
  s.promotions.filter
    (fun p => p.isActive && decide (p.startDate ≤ now) && decide (now ≤ p.endDate))

/-- Insert shape for `promotion_redemptions`
(`insertPromotionRedemptionSchema`: omits id and redeemedAt). -/
structure InsertPromotionRedemption where
  userId : String
  promotionId : String
  pointsEarned : Int
  coinsEarned : Int
  deriving DecidableEq, Repr

/-- `DbStorage.redeemPromotion` (storage.ts 227-243): in one database
transaction, insert the redemption row, then re-read the promotion and, if
present, set `currentRedemptions := (current || 0) + 1`.  The column is
non-null so `|| 0` is the identity. -/
def redeemPromotion (s : Store) (ins : InsertPromotionRedemption)
    (freshId : String) (now : Nat) : Store :=
  let s1 : Store :=
    { s with promotionRedemptions := s.promotionRedemptions ++
        [{ id := freshId, userId := ins.userId, promotionId := ins.promotionId,
           pointsEarned := ins.pointsEarned, coinsEarned := ins.coinsEarned,
           redeemedAt := now }] }
  match s1.promotions.find? (fun p => p.id == ins.promotionId) with
  | none => s1
  | some _ =>
    { s1 with promotions := s1.promotions.map (fun p =>
        if p.id == ins.promotionId then
          { p with currentRedemptions := p.currentRedemptions + 1 } else p) }

/-- `DbStorage.getUserPromotionRedemptions` (storage.ts 245-257): the
user's redemption rows inner-joined with `promotions`. -/
def getUserPromotionRedemptions (s : Store) (userId : String) :
    List (Promotion × Nat) :=
  (s.promotionRedemptions.filter (fun r => r.userId == userId)).filterMap
    (fun r => (s.promotions.find? (fun p => p.id == r.promotionId)).map
      (fun p => (p, r.redeemedAt)))

/-- Insert shape for `reward_redemptions`
(`insertRewardRedemptionSchema`: omits id, claimedAt, completedAt). -/
structure InsertRewardRedemption where
  userId : String
  rewardId : String
  pointsSpent : Int
  status : String
  redemptionCode : Option String
  notes : Option String
  deriving DecidableEq, Repr

/-- `DbStorage.redeemReward` (storage.ts 373-436), one database
transaction: check the reward exists (`"Reward not found"`), has stock
(`"Reward out of stock"`); check the user exists with enough points
(`"Insufficient points"` covers both); insert the redemption row; write
`pointBalance := fetched − pointsSpent`; write `stock := fetched − 1`;
insert the `reward_redemption` ledger row.  A thrown error rolls everything
back, which the `Except` error branch models. -/
def redeemReward (s : Store) (ins : InsertRewardRedemption)
    (freshId txId : String) (now : Nat) :
    Except ApiError (RewardRedemption × Store) :=
  match getRewardById s ins.rewardId with
  | none => .error .rewardNotFound
  | some reward =>
    if reward.stock ≤ 0 then .error .rewardOutOfStock
    else
      match getUser s ins.userId with
      | none => .error .insufficientPoints
      | some user =>
        if user.pointBalance < ins.pointsSpent then .error .insufficientPoints
        else
          let newRedemption : RewardRedemption :=
            { id := freshId, userId := ins.userId, rewardId := ins.rewardId,
              pointsSpent := ins.pointsSpent, status := ins.status,
              redemptionCode := ins.redemptionCode, claimedAt := now,
              completedAt := none, notes := ins.notes }
          let s1 : Store :=
            { s with rewardRedemptions := s.rewardRedemptions ++ [newRedemption] }
          let s2 : Store :=
            { s1 with users := s1.users.map (fun u =>
                if u.id == ins.userId then
                  { u with pointBalance := user.pointBalance - ins.pointsSpent }
                else u) }
          let s3 : Store :=
            { s2 with rewards := s2.rewards.map (fun r =>
                if r.id == ins.rewardId then { r with stock := reward.stock - 1 }
                else r) }
          let tx : Transaction :=
            { id := txId, userId := ins.userId, type := "reward_redemption",
              amount := none, coinsAdded := 0, pointsEarned := -ins.pointsSpent,
              description := "Redeemed reward: " ++ reward.title,
              status := "completed",
              metadata := some { rewardId := ins.rewardId, redemptionId := freshId },
              createdAt := now }
          .ok (newRedemption, createTransaction s3 tx)

/-- The store the caller observes after a transactional storage call:
the returned store on success, the untouched pre-call store on rollback. -/
def commitState {α : Type} (s : Store) : Except ApiError (α × Store) → Store
  | .ok (_, s2) => s2
  | .error _ => s

/-- `DbStorage.getSalesAnalytics` (storage.ts 288-307): over the
`type = "purchase"` transactions, total revenue by a fold of
`parseFloat(amount || '0')`, the row count, and their quotient
(0 when the count is 0).  Returns (totalRevenue, totalTransactions,
averageTransaction). -/
def getSalesAnalytics (s : Store) : ℚ × Nat × ℚ :=
  let purchaseTransactions := s.transactions.filter (fun t => t.type == "purchase")
  let totalRevenue : ℚ :=
    purchaseTransactions.foldl (fun sum t => sum + t.amount.getD 0) 0
  let totalTransactions := purchaseTransactions.length
  let averageTransaction : ℚ :=
    if totalTransactions > 0 then totalRevenue / (totalTransactions : ℚ) else 0
  (totalRevenue, totalTransactions, averageTransaction)

/-- `DbStorage.getUserAnalytics` (storage.ts 309-323): total user count and
the count of users with `coinBalance >= 1`.  Returns
(totalUsers, activeUsers). -/
def getUserAnalytics (s : Store) : Nat × Nat :=
  (s.users.length, (s.users.filter (fun u => decide (1 ≤ u.coinBalance))).length)

/-! ## Route handlers (`src/server/routes.ts`) -/

/-- `POST /api/rewards/redeem/:id` (routes.ts 465-488): look up the reward
(404 if absent), reject when `!isActive || stock <= 0`, then call the
transactional `redeemReward` with `pointsSpent = reward.pointsRequired`,
status `"pending"` and redemption code
`RWD-${Date.now()}-${randomSuffix}`.  `nowMs` stands for `Date.now()` and
`rand` for the random base-36 suffix.  The second component is the store
the caller sees afterwards (rollback keeps `s`). -/
def routeRedeemReward (s : Store) (userId rewardId : String)
    (nowMs : Nat) (rand : String) (freshId txId : String) (now : Nat) :
    Except ApiError RewardRedemption × Store :=
  match getRewardById s rewardId with
  | none => (.error .rewardNotFound, s)
  | some reward =>
    if reward.isActive = false ∨ reward.stock ≤ 0 then
      (.error .rewardNotAvailable, s)
    else
      match redeemReward s
          { userId := userId, rewardId := rewardId,
            pointsSpent := reward.pointsRequired, status := "pending",
            redemptionCode := some ("RWD-" ++ toString nowMs ++ "-" ++ rand),
            notes := none }
          freshId txId now with
      | .error e => (.error e, s)
      | .ok (red, s2) => (.ok red, s2)

/-- The eligibility phase of `POST /api/promotions/redeem/:id`
(routes.ts 210-224): find the promotion among the active ones (404
"Promotion not found or expired" if absent), then reject with
"Promotion already redeemed" when the user's joined redemption list
already mentions this promotion id. -/
def promoEligibility (s : Store) (userId promoId : String) (now : Nat) :
    Except ApiError Promotion :=
  match (getActivePromotions s now).find? (fun p => p.id == promoId) with
  | none => .error .promotionNotFoundOrExpired
  | some promotion =>
    if (getUserPromotionRedemptions s userId).any (fun pr => pr.1.id == promoId) then
      .error .alreadyRedeemed
    else .ok promotion

/-- The grant computation of `POST /api/promotions/redeem/:id`
(routes.ts 226-234): `(pointsEarned, coinsEarned)` from the promotion
type; only `bonus_points` and `extra_coins` grant anything. -/
def promoGrant (t : String) (value : Int) : Int × Int :=
  if t == "bonus_points" then (value, 0)
  else if t == "extra_coins" then (0, value)
  else (0, 0)

/-- The write phase of `POST /api/promotions/redeem/:id`
(routes.ts 236-255): `storage.redeemPromotion` (insert + counter
increment, one transaction), then `storage.updateUserBalance`, then
`storage.createTransaction` — three separate store calls.  If the balance
update fails the redemption insert is already committed, so the error
branch keeps the post-insert store `s1`. -/
def promoCommit (s : Store) (userId promoId : String) (promotion : Promotion)
    (redId txId : String) (now : Nat) :
    Except ApiError (Int × Int × User) × Store :=
  let grant := promoGrant promotion.type promotion.value
  let pointsEarned := grant.1
  let coinsEarned := grant.2
  let s1 := redeemPromotion s
    { userId := userId, promotionId := promoId,
      pointsEarned := pointsEarned, coinsEarned := coinsEarned } redId now
  match updateUserBalance s1 userId coinsEarned pointsEarned with
  | .error e => (.error e, s1)
  | .ok (updatedUser, s2) =>
    let tx : Transaction :=
      { id := txId, userId := userId, type := "promotion", amount := none,
        coinsAdded := coinsEarned, pointsEarned := pointsEarned,
        description := "Redeemed promotion: " ++ promotion.title,
        status := "completed", metadata := none, createdAt := now }
    (.ok (pointsEarned, coinsEarned, updatedUser), createTransaction s2 tx)

/-- `POST /api/promotions/redeem/:id` (routes.ts 208-269): eligibility
check, then the write phase. -/
def routeRedeemPromotion (s : Store) (userId promoId : String)
    (redId txId : String) (now : Nat) :
    Except ApiError (Int × Int × User) × Store :=
  match promoEligibility s userId promoId now with
  | .error e => (.error e, s)
  | .ok promotion => promoCommit s userId promoId promotion redId txId now

/-- `POST /api/admin/topup` (routes.ts 392-441).  Inputs are the values
after the JS normalisation (`parseInt`/`parseFloat` with non-finite values
mapped to 0): `coins : Int`, `amount : ℚ`.  Fails Validation unless one of
them is positive; computes `pointsToAdd = Math.floor(amount / 50)`;
applies `updateUserBalance`; appends a `"purchase"` transaction (its
`amount` field is `undefined` exactly when the normalized amount is 0, JS
falsiness) and an admin-action row.  Returns `(computedPoints, updatedUser)`. -/
def routeTopUp (s : Store) (adminId userId : String) (coins : Int) (amount : ℚ)
    (txId actId : String) (now : Nat) :
    Except ApiError (Int × User) × Store :=
  if coins ≤ 0 ∧ amount ≤ 0 then (.error .validation, s)
  else
    let pointsToAdd : Int := ⌊amount / 50⌋
    match updateUserBalance s userId coins pointsToAdd with
    | .error e => (.error e, s)
    | .ok (updatedUser, s2) =>
      let tx : Transaction :=
        { id := txId, userId := userId, type := "purchase",
          amount := if amount = 0 then none else some amount,
          coinsAdded := coins, pointsEarned := pointsToAdd,
          description := "Cashier purchase", status := "completed",
          metadata := none, createdAt := now }
      let s3 := createTransaction s2 tx
      let s4 : Store :=
        { s3 with adminActions := s3.adminActions ++
            [{ id := actId, adminId := adminId, targetUserId := some userId,
               action := "topup", description := "Processed cashier purchase",
               createdAt := now }] }
      (.ok (pointsToAdd, updatedUser), s4)

/-- The fields of a register request body that `insertUserSchema` keeps:
`createInsertSchema(users).omit({id, createdAt, coinBalance, pointBalance,
level})` (schema.ts 92-98).  `role` is NOT omitted; it is optional because
the column has a database default.  Balance/level keys in the raw body are
stripped by the zod object parse and never reach the insert. -/
structure InsertUser where
  email : String
  username : String
  password : String
  role : Option String
  deriving DecidableEq, Repr

/-- `DbStorage.createUser` (storage.ts 109-112): insert with database
defaults for the omitted columns (`role` defaults to `"user"`,
`coinBalance`/`pointBalance` to 0, `level` to 1). -/
def createUser (s : Store) (ins : InsertUser) (freshId : String) (now : Nat) :
    User × Store :=
  let u : User :=
    { id := freshId, email := ins.email, username := ins.username,
      password := ins.password, role := ins.role.getD "user",
      coinBalance := 0, pointBalance := 0, level := 1, createdAt := now }
  (u, { s with users := s.users ++ [u] })

/-- `POST /api/auth/register` (routes.ts 91-120): validate the body with
`insertUserSchema`, reject when a user with that email exists, hash the
password (`hash` stands for bcrypt) and create the user. -/
def routeRegister (s : Store) (body : InsertUser) (hash : String → String)
    (freshId : String) (now : Nat) : Except ApiError User × Store :=
  match getUserByEmail s body.email with
  | some _ => (.error .userAlreadyExists, s)
  | none =>
    let created := createUser s { body with password := hash body.password } freshId now
    (.ok created.1, created.2)

/-! ## Interleaving model for concurrent promotion redemption

The promotion route performs its already-redeemed check and its writes as
separate store calls with no locking and no uniqueness constraint on
`(userId, promotionId)`, so two in-flight requests interleave at the store
call boundary.  Each request is a two-step machine — run the eligibility
check against the current store, then run the write phase — and a schedule
chooses which request steps next. -/

/-- The identity of one in-flight `POST /api/promotions/redeem/:id`
request: the caller, the target promotion, and the ids the database will
generate for its redemption and transaction rows. -/
structure PromoRequest where
  userId : String
  promoId : String
  redId : String
  txId : String
  deriving DecidableEq, Repr

/-- Progress of one in-flight promotion-redemption request. -/
inductive PromoReqState
  | pending
  | granted (promotion : Promotion)
  | rejected (e : ApiError)
  | finished (result : Except ApiError (Int × Int × User))
  deriving Repr

/-- One scheduler step of an in-flight request: `pending` runs the
eligibility check (routes.ts 210-224) against the store as it is NOW;
`granted` runs the write phase (routes.ts 236-255). -/
def promoStep (now : Nat) (req : PromoRequest) :
    PromoReqState → Store → PromoReqState × Store
  | .pending, s =>
    (match promoEligibility s req.userId req.promoId now with
     | .error e => (.rejected e, s)
     | .ok promotion => (.granted promotion, s))
  | .granted promotion, s =>
    let out := promoCommit s req.userId req.promoId promotion req.redId req.txId now
    (.finished out.1, out.2)
  | st, s => (st, s)

/-- Run two concurrent promotion-redemption requests under a schedule:
`true` steps the first request, `false` the second. -/
def runTwoPromoReqs (now : Nat) (r1 r2 : PromoRequest) :
    List Bool → PromoReqState → PromoReqState → Store →
    PromoReqState × PromoReqState × Store
  | [], st1, st2, s => (st1, st2, s)
  | true :: rest, st1, st2, s =>
    let out := promoStep now r1 st1 s
    runTwoPromoReqs now r1 r2 rest out.1 st2 out.2
  | false :: rest, st1, st2, s =>
    let out := promoStep now r2 st2 s
    runTwoPromoReqs now r1 r2 rest st1 out.1 out.2

/-- A user row with its `pointBalance` blanked out, for stating that an
operation may touch nothing but `pointBalance`. -/
def erasePointBalance (u : User) : User :=
  { u with pointBalance := 0 }

/-- Specification-style restatement of total revenue (spec §4.5): the sum
of the `amount` field over all `type = "purchase"` transaction rows, an
absent amount counting as 0.  Compared against the fold the code runs. -/
def totalRevenueSpec (s : Store) : ℚ :=
  ((s.transactions.filter (fun t => t.type == "purchase")).map (fun t => t.amount.getD 0)).sum

/-- Specification-style count of `type = "purchase"` transaction rows. -/
def purchaseCountSpec (s : Store) : Nat :=
  (s.transactions.filter (fun t => t.type == "purchase")).length

/-- Specification-style count of active users: those with
`coinBalance ≥ 1`. -/
def activeUsersSpec (s : Store) : Nat :=
  s.users.countP (fun u => decide (1 ≤ u.coinBalance))

/-! ## Helper lemmas -/

/-- `find?` commutes with mapping a function that does not change the
predicate's verdict. -/
theorem find?_map_of_pred_eq {α : Type} (l : List α) (p : α → Bool) (f : α → α)
    (hf : ∀ a, p (f a) = p a) : (l.map f).find? p = (l.find? p).map f := by
  induction l with
  | nil => rfl
  | cons a t ih =>
    by_cases h : p a = true
    · rw [List.map_cons, List.find?_cons_of_pos _ (by rw [hf]; exact h),
        List.find?_cons_of_pos _ h]
      rfl
    · have h' : p a = false := by revert h; cases p a <;> simp
      rw [List.map_cons, List.find?_cons_of_neg _ (by rw [hf, h']; simp),
        List.find?_cons_of_neg _ (by rw [h']; simp), ih]

/-- A left fold of rational additions equals the starting value plus the
sum of the mapped list. -/
theorem foldl_add_eq_sum {α : Type} (l : List α) (f : α → ℚ) (a : ℚ) :
    l.foldl (fun acc t => acc + f t) a = a + (l.map f).sum := by
  induction l generalizing a with
  | nil => simp
  | cons x t ih => simp only [List.foldl_cons, List.map_cons, List.sum_cons, ih, add_assoc]

/-- Claim C5: `updateUserBalance` fails with NotFound for a missing user
(and, the `Except` error carrying no store, changes nothing); for an
existing user it adds the deltas by plain integer addition with no clamp,
returns the post-mutation snapshot (which is what the store then holds for
this user), and touches nothing else. -/
theorem updateUserBalance_spec (s : Store) (userId : String) (coinDelta pointDelta : Int) :
    (getUser s userId = none →
      updateUserBalance s userId coinDelta pointDelta = .error .userNotFound) ∧
    (∀ u, getUser s userId = some u →
      ∃ u2 s2, updateUserBalance s userId coinDelta pointDelta = .ok (u2, s2) ∧
        u2.coinBalance = u.coinBalance + coinDelta ∧
        u2.pointBalance = u.pointBalance + pointDelta ∧
        u2.id = u.id ∧ u2.email = u.email ∧ u2.username = u.username ∧
        u2.password = u.password ∧ u2.role = u.role ∧ u2.level = u.level ∧
        u2.createdAt = u.createdAt ∧
        getUser s2 userId = some u2 ∧
        s2.transactions = s.transactions ∧ s2.promotions = s.promotions ∧
        s2.promotionRedemptions = s.promotionRedemptions ∧
        s2.rewards = s.rewards ∧ s2.rewardRedemptions = s.rewardRedemptions ∧
        s2.adminActions = s.adminActions ∧
        ∀ v ∈ s.users, v.id ≠ userId → v ∈ s2.users) := by
  constructor
  · intro h
    simp only [updateUserBalance, h]
  · intro u h
    have h' : s.users.find? (fun v => v.id == userId) = some u := h
    have hid : (u.id == userId) = true := by simpa using List.find?_some h'
    set u2 : User := { u with coinBalance := u.coinBalance + coinDelta, pointBalance := u.pointBalance + pointDelta } with hu2
    set f : User → User := fun v => if v.id == userId then u2 else v with hfdef
    have huid : u.id = userId := by simpa using hid
    have hf : ∀ a : User, ((f a).id == userId) = (a.id == userId) := by
      intro a
      by_cases ha : a.id = userId
      · simp [hfdef, hu2, ha, huid]
      · simp [hfdef, ha]
    have heq : updateUserBalance s userId coinDelta pointDelta =
        .ok (u2, { s with users := s.users.map f }) := by
      unfold updateUserBalance
      rw [h]
    refine ⟨u2, { s with users := s.users.map f }, heq,
      rfl, rfl, rfl, rfl, rfl, rfl, rfl, rfl, rfl, ?_, rfl, rfl, rfl, rfl, rfl, rfl, ?_⟩
    · show (s.users.map f).find? (fun v => v.id == userId) = some u2
      rw [find?_map_of_pred_eq _ _ _ hf, h']
      simp [hfdef, huid]
    · intro v hv hne
      refine List.mem_map.mpr ⟨v, hv, ?_⟩
      simp [hfdef, hne]

/-- Witness for claim C5: a concrete user with balances (5, 7); deltas
(−10, −3) drive both balances negative with no clamp. -/
theorem updateUserBalance_spec_witness :
    ∃ u2 s2, updateUserBalance
        { users := [{ id := "u1", email := "a@b.c", username := "a", password := "h",
                      role := "user", coinBalance := 5, pointBalance := 7, level := 1,
                      createdAt := 0 }],
          transactions := [], promotions := [], promotionRedemptions := [],
          rewards := [], rewardRedemptions := [], adminActions := [] }
        "u1" (-10) (-3) = .ok (u2, s2) ∧
      u2.coinBalance = -5 ∧ u2.pointBalance = 4 := by
  obtain ⟨u2, s2, h1, h2, h3, -⟩ :=
    (updateUserBalance_spec
      { users := [{ id := "u1", email := "a@b.c", username := "a", password := "h",
                    role := "user", coinBalance := 5, pointBalance := 7, level := 1,
                    createdAt := 0 }],
        transactions := [], promotions := [], promotionRedemptions := [],
        rewards := [], rewardRedemptions := [], adminActions := [] }
      "u1" (-10) (-3)).2
      { id := "u1", email := "a@b.c", username := "a", password := "h",
        role := "user", coinBalance := 5, pointBalance := 7, level := 1,
        createdAt := 0 }
      (by rfl)
  exact ⟨u2, s2, h1, by rw [h2]; decide, by rw [h3]; decide⟩

/-- Claim C1: `redeemReward` fails with the typed error matching the first
violated precondition — reward missing, reward out of stock, or point
balance strictly below the points to spend — and, the transaction rolling
back, the caller's store is exactly the pre-call store. -/
theorem redeemReward_error_cases (s : Store) (ins : InsertRewardRedemption)
    (freshId txId : String) (now : Nat) :
    (getRewardById s ins.rewardId = none →
      redeemReward s ins freshId txId now = .error .rewardNotFound ∧
      commitState s (redeemReward s ins freshId txId now) = s) ∧
    (∀ rwd, getRewardById s ins.rewardId = some rwd → rwd.stock ≤ 0 →
      redeemReward s ins freshId txId now = .error .rewardOutOfStock ∧
      commitState s (redeemReward s ins freshId txId now) = s) ∧
    (∀ rwd u, getRewardById s ins.rewardId = some rwd → 0 < rwd.stock →
      getUser s ins.userId = some u → u.pointBalance < ins.pointsSpent →
      redeemReward s ins freshId txId now = .error .insufficientPoints ∧
      commitState s (redeemReward s ins freshId txId now) = s) := by
  refine ⟨?_, ?_, ?_⟩
  · intro h
    have he : redeemReward s ins freshId txId now = .error .rewardNotFound := by
      simp only [redeemReward, h]
    exact ⟨he, by rw [he]; rfl⟩
  · intro rwd h hstock
    have he : redeemReward s ins freshId txId now = .error .rewardOutOfStock := by
      simp only [redeemReward, h, if_pos hstock]
    exact ⟨he, by rw [he]; rfl⟩
  · intro rwd u h hstock hu hpts
    have he : redeemReward s ins freshId txId now = .error .insufficientPoints := by
      simp only [redeemReward, h, hu]
      rw [if_neg (by omega : ¬ rwd.stock ≤ 0)]
      rw [if_pos hpts]
    exact ⟨he, by rw [he]; rfl⟩

/-- Witness for claim C1: the user holds 150 points, the reward costs 200
and is in stock — the call fails `InsufficientPoints` and the store is
unchanged. -/
theorem redeemReward_error_cases_witness :
    redeemReward
        { users := [{ id := "u1", email := "a@b.c", username := "a", password := "h",
                      role := "user", coinBalance := 0, pointBalance := 150, level := 1,
                      createdAt := 0 }],
          transactions := [], promotions := [], promotionRedemptions := [],
          rewards := [{ id := "r1", title := "Plush", description := "d",
                        imageUrl := none, pointsRequired := 200, stock := 3,
                        isActive := true, category := "general", emoji := "g",
                        createdAt := 0, updatedAt := 0 }],
          rewardRedemptions := [], adminActions := [] }
        { userId := "u1", rewardId := "r1", pointsSpent := 200, status := "pending",
          redemptionCode := some "RWD-1-X", notes := none }
        "rr1" "tx1" 5 = .error .insufficientPoints ∧
    commitState
        { users := [{ id := "u1", email := "a@b.c", username := "a", password := "h",
                      role := "user", coinBalance := 0, pointBalance := 150, level := 1,
                      createdAt := 0 }],
          transactions := [], promotions := [], promotionRedemptions := [],
          rewards := [{ id := "r1", title := "Plush", description := "d",
                        imageUrl := none, pointsRequired := 200, stock := 3,
                        isActive := true, category := "general", emoji := "g",
                        createdAt := 0, updatedAt := 0 }],
          rewardRedemptions := [], adminActions := [] }
        (redeemReward
          { users := [{ id := "u1", email := "a@b.c", username := "a", password := "h",
                        role := "user", coinBalance := 0, pointBalance := 150, level := 1,
                        createdAt := 0 }],
            transactions := [], promotions := [], promotionRedemptions := [],
            rewards := [{ id := "r1", title := "Plush", description := "d",
                          imageUrl := none, pointsRequired := 200, stock := 3,
                          isActive := true, category := "general", emoji := "g",
                          createdAt := 0, updatedAt := 0 }],
            rewardRedemptions := [], adminActions := [] }
          { userId := "u1", rewardId := "r1", pointsSpent := 200, status := "pending",
            redemptionCode := some "RWD-1-X", notes := none }
          "rr1" "tx1" 5) =
      { users := [{ id := "u1", email := "a@b.c", username := "a", password := "h",
                    role := "user", coinBalance := 0, pointBalance := 150, level := 1,
                    createdAt := 0 }],
        transactions := [], promotions := [], promotionRedemptions := [],
        rewards := [{ id := "r1", title := "Plush", description := "d",
                      imageUrl := none, pointsRequired := 200, stock := 3,
                      isActive := true, category := "general", emoji := "g",
                      createdAt := 0, updatedAt := 0 }],
        rewardRedemptions := [], adminActions := [] } := by
  exact (redeemReward_error_cases _ _ "rr1" "tx1" 5).2.2
    { id := "r1", title := "Plush", description := "d", imageUrl := none,
      pointsRequired := 200, stock := 3, isActive := true, category := "general",
      emoji := "g", createdAt := 0, updatedAt := 0 }
    { id := "u1", email := "a@b.c", username := "a", password := "h",
      role := "user", coinBalance := 0, pointBalance := 150, level := 1,
      createdAt := 0 }
    (by rfl) (by decide) (by rfl) (by decide)

/-- Claim C2: a successful self-service redemption (reward exists, active,
stock ≥ 1, user exists with enough points) decreases the user's
pointBalance by exactly `pointsRequired`, decreases the stock by exactly
1, appends exactly one RewardRedemption row with
`pointsSpent = pointsRequired`, status `"pending"` and the generated
`RWD-…` code, and appends exactly one `"reward_redemption"` transaction
with `pointsEarned = −pointsSpent`, `coinsAdded = 0`, status
`"completed"`. -/
theorem routeRedeemReward_success (s : Store) (userId rewardId : String)
    (nowMs : Nat) (rand freshId txId : String) (now : Nat)
    (rwd : Reward) (u : User)
    (hr : getRewardById s rewardId = some rwd)
    (hact : rwd.isActive = true)
    (hstock : 1 ≤ rwd.stock)
    (hu : getUser s userId = some u)
    (hpts : rwd.pointsRequired ≤ u.pointBalance) :
    ∃ red s2,
      routeRedeemReward s userId rewardId nowMs rand freshId txId now = (.ok red, s2) ∧
      red.pointsSpent = rwd.pointsRequired ∧
      red.status = "pending" ∧
      red.redemptionCode = some ("RWD-" ++ toString nowMs ++ "-" ++ rand) ∧
      s2.rewardRedemptions = s.rewardRedemptions ++ [red] ∧
      getUser s2 userId = some { u with pointBalance := u.pointBalance - rwd.pointsRequired } ∧
      getRewardById s2 rewardId = some { rwd with stock := rwd.stock - 1 } ∧
      ∃ tx, s2.transactions = s.transactions ++ [tx] ∧
        tx.type = "reward_redemption" ∧
        tx.pointsEarned = -red.pointsSpent ∧
        tx.coinsAdded = 0 ∧
        tx.status = "completed" := by
  have h1 : s.users.find? (fun v => v.id == userId) = some u := hu
  have huid : u.id = userId := by simpa using List.find?_some h1
  have h2 : s.rewards.find? (fun r => r.id == rewardId) = some rwd := hr
  have hrid : rwd.id = rewardId := by simpa using List.find?_some h2
  have hcond : ¬(rwd.isActive = false ∨ rwd.stock ≤ 0) := by
    push_neg
    refine ⟨by simp [hact], by omega⟩
  have hsneg : ¬ rwd.stock ≤ 0 := by omega
  have hpneg : ¬ u.pointBalance < rwd.pointsRequired := by omega
  simp only [routeRedeemReward, hr, if_neg hcond, redeemReward, getRewardById, getUser,
    h1, h2, if_neg hsneg, if_neg hpneg]
  refine ⟨_, _, rfl, rfl, rfl, rfl, rfl, ?_, ?_, ⟨_, rfl, rfl, rfl, rfl, rfl⟩⟩
  · show (List.map _ s.users).find? (fun v : User => v.id == userId) = _
    rw [find?_map_of_pred_eq _ _ _ (by intro a; by_cases ha : a.id = userId <;> simp [ha]), h1]
    simp [huid]
  · show (List.map _ s.rewards).find? (fun r : Reward => r.id == rewardId) = _
    rw [find?_map_of_pred_eq _ _ _ (by intro a; by_cases ha : a.id = rewardId <;> simp [ha]), h2]
    simp [hrid]

/-- Witness for claim C2: user with 52 points redeems an active reward
costing 50 with stock 3; the balance drops to 2 and the stock to 2. -/
theorem routeRedeemReward_success_witness :
    ∃ red s2,
      routeRedeemReward
          { users := [{ id := "u1", email := "a@b.c", username := "a", password := "h",
                        role := "user", coinBalance := 0, pointBalance := 52, level := 1,
                        createdAt := 0 }],
            transactions := [], promotions := [], promotionRedemptions := [],
            rewards := [{ id := "r1", title := "T", description := "d",
                          imageUrl := none, pointsRequired := 50, stock := 3,
                          isActive := true, category := "general", emoji := "g",
                          createdAt := 0, updatedAt := 0 }],
            rewardRedemptions := [], adminActions := [] }
          "u1" "r1" 111 "ABC" "rr1" "tx1" 7 = (.ok red, s2) ∧
      red.pointsSpent = 50 ∧
      red.status = "pending" ∧
      red.redemptionCode = some "RWD-111-ABC" ∧
      getUser s2 "u1" = some
        { id := "u1", email := "a@b.c", username := "a", password := "h",
          role := "user", coinBalance := 0, pointBalance := 2, level := 1,
          createdAt := 0 } ∧
      getRewardById s2 "r1" = some
        { id := "r1", title := "T", description := "d", imageUrl := none,
          pointsRequired := 50, stock := 2, isActive := true,
          category := "general", emoji := "g", createdAt := 0, updatedAt := 0 } := by
  obtain ⟨red, s2, hroute, hspent, hstat, hcode, -, hbal, hstk, -⟩ :=
    routeRedeemReward_success
      { users := [{ id := "u1", email := "a@b.c", username := "a", password := "h",
                    role := "user", coinBalance := 0, pointBalance := 52, level := 1,
                    createdAt := 0 }],
        transactions := [], promotions := [], promotionRedemptions := [],
        rewards := [{ id := "r1", title := "T", description := "d",
                      imageUrl := none, pointsRequired := 50, stock := 3,
                      isActive := true, category := "general", emoji := "g",
                      createdAt := 0, updatedAt := 0 }],
        rewardRedemptions := [], adminActions := [] }
      "u1" "r1" 111 "ABC" "rr1" "tx1" 7
      { id := "r1", title := "T", description := "d", imageUrl := none,
        pointsRequired := 50, stock := 3, isActive := true, category := "general",
        emoji := "g", createdAt := 0, updatedAt := 0 }
      { id := "u1", email := "a@b.c", username := "a", password := "h",
        role := "user", coinBalance := 0, pointBalance := 52, level := 1,
        createdAt := 0 }
      (by rfl) (by rfl) (by decide) (by rfl) (by decide)
  exact ⟨red, s2, hroute, hspent, hstat, hcode, hbal, hstk⟩

/-- Claim C8: a successful `redeemReward` touches points only — in the
users table, every field of every row other than `pointBalance`
(id, email, username, password, role, coinBalance, level, createdAt) is
exactly as before. -/
theorem redeemReward_touches_points_only (s : Store) (ins : InsertRewardRedemption)
    (freshId txId : String) (now : Nat) (red : RewardRedemption) (s2 : Store)
    (h : redeemReward s ins freshId txId now = .ok (red, s2)) :
    s2.users.map erasePointBalance = s.users.map erasePointBalance ∧
    s2.users.length = s.users.length := by
  cases hg : getRewardById s ins.rewardId with
  | none =>
    simp only [redeemReward, hg] at h
    exact Except.noConfusion h
  | some rwd =>
    by_cases hs : rwd.stock ≤ 0
    · simp only [redeemReward, hg, if_pos hs] at h
      exact Except.noConfusion h
    · cases hu : getUser s ins.userId with
      | none =>
        simp only [redeemReward, hg, hu, if_neg hs] at h
        exact Except.noConfusion h
      | some u =>
        by_cases hp : u.pointBalance < ins.pointsSpent
        · simp only [redeemReward, hg, hu, if_neg hs, if_pos hp] at h
          exact Except.noConfusion h
        · simp only [redeemReward, hg, hu, if_neg hs, if_neg hp] at h
          obtain ⟨-, hs2⟩ := Prod.mk.inj (Except.ok.inj h)
          subst hs2
          constructor
          · show (s.users.map _).map erasePointBalance = _
            rw [List.map_map]
            refine List.map_congr_left ?_
            intro a _
            by_cases ha : a.id = ins.userId <;> simp [erasePointBalance, ha]
          · show (s.users.map _).length = _
            simp

/-- Witness for claim C8: concrete successful redemption; the single user
row differs from before only in `pointBalance`. -/
theorem redeemReward_touches_points_only_witness :
    ∃ red s2,
      redeemReward
          { users := [{ id := "u1", email := "a@b.c", username := "a", password := "h",
                        role := "user", coinBalance := 9, pointBalance := 100, level := 2,
                        createdAt := 4 }],
            transactions := [], promotions := [], promotionRedemptions := [],
            rewards := [{ id := "r1", title := "T", description := "d",
                          imageUrl := none, pointsRequired := 40, stock := 2,
                          isActive := true, category := "general", emoji := "g",
                          createdAt := 0, updatedAt := 0 }],
            rewardRedemptions := [], adminActions := [] }
          { userId := "u1", rewardId := "r1", pointsSpent := 40, status := "pending",
            redemptionCode := some "c", notes := none }
          "rr1" "tx1" 7 = .ok (red, s2) ∧
      s2.users.map erasePointBalance =
        ({ users := [{ id := "u1", email := "a@b.c", username := "a", password := "h",
                       role := "user", coinBalance := 9, pointBalance := 100, level := 2,
                       createdAt := 4 }],
           transactions := [], promotions := [], promotionRedemptions := [],
           rewards := [{ id := "r1", title := "T", description := "d",
                         imageUrl := none, pointsRequired := 40, stock := 2,
                         isActive := true, category := "general", emoji := "g",
                         createdAt := 0, updatedAt := 0 }],
           rewardRedemptions := [], adminActions := [] } : Store).users.map erasePointBalance := by
  refine ⟨_, _, rfl, ?_⟩
  exact (redeemReward_touches_points_only
    { users := [{ id := "u1", email := "a@b.c", username := "a", password := "h",
                  role := "user", coinBalance := 9, pointBalance := 100, level := 2,
                  createdAt := 4 }],
      transactions := [], promotions := [], promotionRedemptions := [],
      rewards := [{ id := "r1", title := "T", description := "d",
                    imageUrl := none, pointsRequired := 40, stock := 2,
                    isActive := true, category := "general", emoji := "g",
                    createdAt := 0, updatedAt := 0 }],
      rewardRedemptions := [], adminActions := [] }
    { userId := "u1", rewardId := "r1", pointsSpent := 40, status := "pending",
      redemptionCode := some "c", notes := none }
    "rr1" "tx1" 7 _ _ rfl).1

/-- Claim C3 fails on the code under concurrency: with no uniqueness
constraint on `(userId, promotionId)` and the already-redeemed check in a
separate query from the insert, the interleaving check₁ check₂ commit₁
commit₂ lets BOTH calls for the same (user, promotion) succeed: the second
call finishes `.ok` (it does not fail Conflict) and TWO
PromotionRedemption rows for the pair exist afterwards. -/
theorem promotion_double_redeem_concurrent_counterexample :
    ((runTwoPromoReqs 10
        { userId := "u1", promoId := "p1", redId := "red1", txId := "tx1" }
        { userId := "u1", promoId := "p1", redId := "red2", txId := "tx2" }
        [true, false, true, false] .pending .pending
        { users := [{ id := "u1", email := "a@b.c", username := "a", password := "h",
                      role := "user", coinBalance := 0, pointBalance := 0, level := 1,
                      createdAt := 0 }],
          transactions := [],
          promotions := [{ id := "p1", title := "P", description := "d",
                           type := "bonus_points", value := 50, isActive := true,
                           startDate := 0, endDate := 100, maxRedemptions := none,
                           currentRedemptions := 0, emoji := "e", createdAt := 0 }],
          promotionRedemptions := [], rewards := [], rewardRedemptions := [],
          adminActions := [] }).2.2.promotionRedemptions.filter
        (fun r => r.userId == "u1" && r.promotionId == "p1")).length = 2 ∧
    (runTwoPromoReqs 10
        { userId := "u1", promoId := "p1", redId := "red1", txId := "tx1" }
        { userId := "u1", promoId := "p1", redId := "red2", txId := "tx2" }
        [true, false, true, false] .pending .pending
        { users := [{ id := "u1", email := "a@b.c", username := "a", password := "h",
                      role := "user", coinBalance := 0, pointBalance := 0, level := 1,
                      createdAt := 0 }],
          transactions := [],
          promotions := [{ id := "p1", title := "P", description := "d",
                           type := "bonus_points", value := 50, isActive := true,
                           startDate := 0, endDate := 100, maxRedemptions := none,
                           currentRedemptions := 0, emoji := "e", createdAt := 0 }],
          promotionRedemptions := [], rewards := [], rewardRedemptions := [],
          adminActions := [] }).2.1 = .finished (.ok (50, 0,
        { id := "u1", email := "a@b.c", username := "a", password := "h",
          role := "user", coinBalance := 0, pointBalance := 100, level := 1,
          createdAt := 0 })) := by
  exact ⟨rfl, rfl⟩

/-- Claim C3 amended: once a PromotionRedemption row for (user, promotion)
is committed and visible, a LATER (non-concurrent) redeemPromotion call by
that user for that still-active promotion fails with Conflict
(AlreadyRedeemed) and leaves the store unchanged, creating no second row;
under concurrent interleaving the pre-insert check gives no such
guarantee. -/
theorem promotion_already_redeemed_sequential (s : Store) (userId promoId : String)
    (redId txId : String) (now : Nat) (p : Promotion) (r : PromotionRedemption)
    (hp : (getActivePromotions s now).find? (fun q => q.id == promoId) = some p)
    (hr : r ∈ s.promotionRedemptions)
    (hru : r.userId = userId) (hrp : r.promotionId = promoId) :
    routeRedeemPromotion s userId promoId redId txId now = (.error .alreadyRedeemed, s) := by
  have hpid : p.id = promoId := by simpa using List.find?_some hp
  have hpmem : p ∈ s.promotions :=
    List.mem_filter.mp (List.mem_of_find?_eq_some hp) |>.1
  have hfind : ∃ q, s.promotions.find? (fun q => q.id == r.promotionId) = some q := by
    cases hq : s.promotions.find? (fun q => q.id == r.promotionId) with
    | none =>
      exfalso
      have := List.find?_eq_none.mp hq p hpmem
      simp [hpid, hrp] at this
    | some q => exact ⟨q, rfl⟩
  obtain ⟨q, hq⟩ := hfind
  have hqid : q.id = r.promotionId := by simpa using List.find?_some hq
  have hany : (getUserPromotionRedemptions s userId).any (fun pr => pr.1.id == promoId) = true := by
    refine List.any_eq_true.mpr ⟨(q, r.redeemedAt), ?_, ?_⟩
    · refine List.mem_filterMap.mpr ⟨r, ?_, ?_⟩
      · exact List.mem_filter.mpr ⟨hr, by simp [hru]⟩
      · rw [hq]
        rfl
    · simp [hqid, hrp]
  have heli : promoEligibility s userId promoId now = .error .alreadyRedeemed := by
    simp only [promoEligibility, hp, hany]
    rfl
  simp only [routeRedeemPromotion, heli]

/-- Witness for the amended claim C3: a store already holding the
(user, promotion) redemption row; the repeat call fails AlreadyRedeemed
and returns the store unchanged. -/
theorem promotion_already_redeemed_sequential_witness :
    routeRedeemPromotion
        { users := [{ id := "u1", email := "a@b.c", username := "a", password := "h",
                      role := "user", coinBalance := 0, pointBalance := 50, level := 1,
                      createdAt := 0 }],
          transactions := [],
          promotions := [{ id := "p1", title := "P", description := "d",
                           type := "bonus_points", value := 50, isActive := true,
                           startDate := 0, endDate := 100, maxRedemptions := none,
                           currentRedemptions := 1, emoji := "e", createdAt := 0 }],
          promotionRedemptions := [{ id := "red1", userId := "u1", promotionId := "p1",
                                     pointsEarned := 50, coinsEarned := 0,
                                     redeemedAt := 5 }],
          rewards := [], rewardRedemptions := [], adminActions := [] }
        "u1" "p1" "red2" "tx2" 10 =
      (.error .alreadyRedeemed,
        { users := [{ id := "u1", email := "a@b.c", username := "a", password := "h",
                      role := "user", coinBalance := 0, pointBalance := 50, level := 1,
                      createdAt := 0 }],
          transactions := [],
          promotions := [{ id := "p1", title := "P", description := "d",
                           type := "bonus_points", value := 50, isActive := true,
                           startDate := 0, endDate := 100, maxRedemptions := none,
                           currentRedemptions := 1, emoji := "e", createdAt := 0 }],
          promotionRedemptions := [{ id := "red1", userId := "u1", promotionId := "p1",
                                     pointsEarned := 50, coinsEarned := 0,
                                     redeemedAt := 5 }],
          rewards := [], rewardRedemptions := [], adminActions := [] }) := by
  exact promotion_already_redeemed_sequential _ "u1" "p1" "red2" "tx2" 10
    { id := "p1", title := "P", description := "d", type := "bonus_points",
      value := 50, isActive := true, startDate := 0, endDate := 100,
      maxRedemptions := none, currentRedemptions := 1, emoji := "e", createdAt := 0 }
    { id := "red1", userId := "u1", promotionId := "p1", pointsEarned := 50,
      coinsEarned := 0, redeemedAt := 5 }
    (by rfl) (by simp) (by rfl) (by rfl)

/-- Claim C4 fails on the code: neither the route nor the storage layer
ever reads `maxRedemptions`.  With `maxRedemptions = 1` and
`currentRedemptions = 1` (cap already reached), a fresh user's redemption
attempt succeeds and pushes `currentRedemptions` to 2 > 1. -/
theorem promotion_capacity_counterexample :
    (routeRedeemPromotion
        { users := [{ id := "u1", email := "a@b.c", username := "a", password := "h",
                      role := "user", coinBalance := 0, pointBalance := 0, level := 1,
                      createdAt := 0 }],
          transactions := [],
          promotions := [{ id := "p1", title := "P", description := "d",
                           type := "bonus_points", value := 50, isActive := true,
                           startDate := 0, endDate := 100, maxRedemptions := some 1,
                           currentRedemptions := 1, emoji := "e", createdAt := 0 }],
          promotionRedemptions := [], rewards := [], rewardRedemptions := [],
          adminActions := [] }
        "u1" "p1" "red1" "tx1" 10).1 = .ok (50, 0,
      { id := "u1", email := "a@b.c", username := "a", password := "h",
        role := "user", coinBalance := 0, pointBalance := 50, level := 1,
        createdAt := 0 }) ∧
    ((routeRedeemPromotion
        { users := [{ id := "u1", email := "a@b.c", username := "a", password := "h",
                      role := "user", coinBalance := 0, pointBalance := 0, level := 1,
                      createdAt := 0 }],
          transactions := [],
          promotions := [{ id := "p1", title := "P", description := "d",
                           type := "bonus_points", value := 50, isActive := true,
                           startDate := 0, endDate := 100, maxRedemptions := some 1,
                           currentRedemptions := 1, emoji := "e", createdAt := 0 }],
          promotionRedemptions := [], rewards := [], rewardRedemptions := [],
          adminActions := [] }
        "u1" "p1" "red1" "tx1" 10).2.promotions.map
      (fun p => (p.maxRedemptions, p.currentRedemptions))) = [(some 1, 2)] := by
  exact ⟨rfl, rfl⟩

/-- Claim C4 amended: the promotion redemption engine does NOT validate
capacity.  For any active promotion, a redemption attempt by an eligible
user succeeds and increments `currentRedemptions` by 1 regardless of
`maxRedemptions`; in particular, when the counter has already reached the
cap the attempt still succeeds, so `currentRedemptions` can exceed
`maxRedemptions`. -/
theorem promotion_capacity_not_validated (s : Store) (userId promoId : String)
    (redId txId : String) (now : Nat) (p : Promotion) (u : User) (m : Int)
    (hp : (getActivePromotions s now).find? (fun q => q.id == promoId) = some p)
    (hps : s.promotions.find? (fun q => q.id == promoId) = some p)
    (hnew : ∀ r ∈ s.promotionRedemptions, r.userId = userId → r.promotionId ≠ promoId)
    (hu : getUser s userId = some u)
    (hmax : p.maxRedemptions = some m)
    (hfull : m ≤ p.currentRedemptions) :
    ∃ res s2, routeRedeemPromotion s userId promoId redId txId now = (.ok res, s2) ∧
      s2.promotions.find? (fun q => q.id == promoId) =
        some { p with currentRedemptions := p.currentRedemptions + 1 } ∧
      m < p.currentRedemptions + 1 := by
  have hpid : p.id = promoId := by simpa using List.find?_some hps
  have hu' : s.users.find? (fun v => v.id == userId) = some u := hu
  have hany : (getUserPromotionRedemptions s userId).any (fun pr => pr.1.id == promoId) = false := by
    refine List.any_eq_false.mpr ?_
    rintro ⟨q, t⟩ hmem
    obtain ⟨r, hrf, hfm⟩ := List.mem_filterMap.mp hmem
    obtain ⟨hrmem, hruB⟩ := List.mem_filter.mp hrf
    cases hq : s.promotions.find? (fun p2 => p2.id == r.promotionId) with
    | none => rw [hq] at hfm; cases hfm
    | some q2 =>
      rw [hq] at hfm
      obtain ⟨hq2, -⟩ := Prod.mk.inj (Option.some.inj hfm)
      have hq2id : q2.id = r.promotionId := by simpa using List.find?_some hq
      have hru' : r.userId = userId := by simpa using hruB
      simp only [beq_iff_eq]
      intro hqp
      refine hnew r hrmem hru' ?_
      rw [← hq2id, hq2]
      exact hqp
  have heli : promoEligibility s userId promoId now = .ok p := by
    simp only [promoEligibility, hp, hany]
    rfl
  simp only [routeRedeemPromotion, heli, promoCommit, redeemPromotion, hps,
    updateUserBalance, getUser, hu', createTransaction]
  refine ⟨_, _, rfl, ?_, by omega⟩
  show (List.map _ s.promotions).find? (fun q : Promotion => q.id == promoId) = _
  rw [find?_map_of_pred_eq _ _ _ (by intro a; by_cases ha : a.id = promoId <;> simp [ha]), hps]
  simp [hpid]

/-- Witness for the amended claim C4: cap 1 already reached
(`currentRedemptions = 1`), yet the attempt succeeds and the counter
reaches 2. -/
theorem promotion_capacity_not_validated_witness :
    ∃ res s2, routeRedeemPromotion
        { users := [{ id := "u2", email := "b@b.c", username := "b", password := "h",
                      role := "user", coinBalance := 0, pointBalance := 0, level := 1,
                      createdAt := 0 }],
          transactions := [],
          promotions := [{ id := "p2", title := "P", description := "d",
                           type := "extra_coins", value := 25, isActive := true,
                           startDate := 0, endDate := 100, maxRedemptions := some 1,
                           currentRedemptions := 1, emoji := "e", createdAt := 0 }],
          promotionRedemptions := [], rewards := [], rewardRedemptions := [],
          adminActions := [] }
        "u2" "p2" "red9" "tx9" 10 = (.ok res, s2) ∧
      s2.promotions.find? (fun q => q.id == "p2") = some
        { id := "p2", title := "P", description := "d", type := "extra_coins",
          value := 25, isActive := true, startDate := 0, endDate := 100,
          maxRedemptions := some 1, currentRedemptions := 2, emoji := "e",
          createdAt := 0 } ∧
      (1 : Int) < 2 := by
  obtain ⟨res, s2, h1, h2, -⟩ :=
    promotion_capacity_not_validated
      { users := [{ id := "u2", email := "b@b.c", username := "b", password := "h",
                    role := "user", coinBalance := 0, pointBalance := 0, level := 1,
                    createdAt := 0 }],
        transactions := [],
        promotions := [{ id := "p2", title := "P", description := "d",
                         type := "extra_coins", value := 25, isActive := true,
                         startDate := 0, endDate := 100, maxRedemptions := some 1,
                         currentRedemptions := 1, emoji := "e", createdAt := 0 }],
        promotionRedemptions := [], rewards := [], rewardRedemptions := [],
        adminActions := [] }
      "u2" "p2" "red9" "tx9" 10
      { id := "p2", title := "P", description := "d", type := "extra_coins",
        value := 25, isActive := true, startDate := 0, endDate := 100,
        maxRedemptions := some 1, currentRedemptions := 1, emoji := "e",
        createdAt := 0 }
      { id := "u2", email := "b@b.c", username := "b", password := "h",
        role := "user", coinBalance := 0, pointBalance := 0, level := 1,
        createdAt := 0 }
      1 (by rfl) (by rfl) (by intro r hr; cases hr) (by rfl) (by rfl) (by decide)
  exact ⟨res, s2, h1, h2, by decide⟩

/-- Shared success-path characterisation of
`POST /api/promotions/redeem/:id`: for an active promotion not yet
redeemed by an existing user, the route succeeds, returns the grant
computed by `promoGrant`, applies exactly that grant to the balances,
increments the promotion counter by 1 and appends one redemption row
carrying the grant snapshot. -/
theorem routeRedeemPromotion_success_shape (s : Store) (userId promoId : String)
    (redId txId : String) (now : Nat) (p : Promotion) (u : User)
    (hp : (getActivePromotions s now).find? (fun q => q.id == promoId) = some p)
    (hps : s.promotions.find? (fun q => q.id == promoId) = some p)
    (hnew : ∀ r ∈ s.promotionRedemptions, r.userId = userId → r.promotionId ≠ promoId)
    (hu : getUser s userId = some u) :
    ∃ u2 s2,
      routeRedeemPromotion s userId promoId redId txId now =
        (.ok ((promoGrant p.type p.value).1, (promoGrant p.type p.value).2, u2), s2) ∧
      u2.pointBalance = u.pointBalance + (promoGrant p.type p.value).1 ∧
      u2.coinBalance = u.coinBalance + (promoGrant p.type p.value).2 ∧
      s2.promotions.find? (fun q => q.id == promoId) =
        some { p with currentRedemptions := p.currentRedemptions + 1 } ∧
      s2.promotionRedemptions = s.promotionRedemptions ++
        [{ id := redId, userId := userId, promotionId := promoId,
           pointsEarned := (promoGrant p.type p.value).1,
           coinsEarned := (promoGrant p.type p.value).2, redeemedAt := now }] := by
  have hpid : p.id = promoId := by simpa using List.find?_some hps
  have hu' : s.users.find? (fun v => v.id == userId) = some u := hu
  have hany : (getUserPromotionRedemptions s userId).any (fun pr => pr.1.id == promoId) = false := by
    refine List.any_eq_false.mpr ?_
    rintro ⟨q, t⟩ hmem
    obtain ⟨r, hrf, hfm⟩ := List.mem_filterMap.mp hmem
    obtain ⟨hrmem, hruB⟩ := List.mem_filter.mp hrf
    cases hq : s.promotions.find? (fun p2 => p2.id == r.promotionId) with
    | none => rw [hq] at hfm; cases hfm
    | some q2 =>
      rw [hq] at hfm
      obtain ⟨hq2, -⟩ := Prod.mk.inj (Option.some.inj hfm)
      have hq2id : q2.id = r.promotionId := by simpa using List.find?_some hq
      have hru' : r.userId = userId := by simpa using hruB
      simp only [beq_iff_eq]
      intro hqp
      refine hnew r hrmem hru' ?_
      rw [← hq2id, hq2]
      exact hqp
  have heli : promoEligibility s userId promoId now = .ok p := by
    simp only [promoEligibility, hp, hany]
    rfl
  simp only [routeRedeemPromotion, heli, promoCommit, redeemPromotion, hps,
    updateUserBalance, getUser, hu', createTransaction]
  refine ⟨_, _, rfl, rfl, rfl, ?_, rfl⟩
  show (List.map _ s.promotions).find? (fun q : Promotion => q.id == promoId) = _
  rw [find?_map_of_pred_eq _ _ _ (by intro a; by_cases ha : a.id = promoId <;> simp [ha]), hps]
  simp [hpid]

/-- Claim C7: the grant of a promotion redemption is a function of the
promotion's type and value only — `bonus_points` grants
(points = value, coins = 0), `extra_coins` grants
(coins = value, points = 0), and `discount`/`free_credits` grant nothing;
exactly those amounts are added to the user's balances. -/
theorem promotion_grant_by_type (s : Store) (userId promoId : String)
    (redId txId : String) (now : Nat) (p : Promotion) (u : User)
    (hp : (getActivePromotions s now).find? (fun q => q.id == promoId) = some p)
    (hps : s.promotions.find? (fun q => q.id == promoId) = some p)
    (hnew : ∀ r ∈ s.promotionRedemptions, r.userId = userId → r.promotionId ≠ promoId)
    (hu : getUser s userId = some u) :
    ∃ pe ce u2 s2,
      routeRedeemPromotion s userId promoId redId txId now = (.ok (pe, ce, u2), s2) ∧
      (p.type = "bonus_points" → pe = p.value ∧ ce = 0) ∧
      (p.type = "extra_coins" → ce = p.value ∧ pe = 0) ∧
      ((p.type = "discount" ∨ p.type = "free_credits") → pe = 0 ∧ ce = 0) ∧
      u2.pointBalance = u.pointBalance + pe ∧
      u2.coinBalance = u.coinBalance + ce := by
  obtain ⟨u2, s2, heq, hpb, hcb, -, -⟩ :=
    routeRedeemPromotion_success_shape s userId promoId redId txId now p u hp hps hnew hu
  refine ⟨_, _, u2, s2, heq, ?_, ?_, ?_, hpb, hcb⟩
  · intro ht
    constructor <;> simp [promoGrant, ht]
  · intro ht
    constructor <;> simp [promoGrant, ht]
  · rintro (ht | ht) <;> exact ⟨by simp [promoGrant, ht], by simp [promoGrant, ht]⟩

/-- Witness for claim C7: an active `extra_coins` promotion of value 25
grants 25 coins and 0 points to the redeeming user. -/
theorem promotion_grant_by_type_witness :
    ∃ pe ce u2 s2,
      routeRedeemPromotion
          { users := [{ id := "u3", email := "c@b.c", username := "c", password := "h",
                        role := "user", coinBalance := 7, pointBalance := 11, level := 1,
                        createdAt := 0 }],
            transactions := [],
            promotions := [{ id := "p3", title := "P", description := "d",
                             type := "extra_coins", value := 25, isActive := true,
                             startDate := 0, endDate := 100, maxRedemptions := none,
                             currentRedemptions := 0, emoji := "e", createdAt := 0 }],
            promotionRedemptions := [], rewards := [], rewardRedemptions := [],
            adminActions := [] }
          "u3" "p3" "red3" "tx3" 10 = (.ok (pe, ce, u2), s2) ∧
      ce = 25 ∧ pe = 0 ∧
      u2.pointBalance = 11 + pe ∧
      u2.coinBalance = 7 + ce := by
  obtain ⟨pe, ce, u2, s2, heq, -, hec, -, hpb, hcb⟩ :=
    promotion_grant_by_type
      { users := [{ id := "u3", email := "c@b.c", username := "c", password := "h",
                    role := "user", coinBalance := 7, pointBalance := 11, level := 1,
                    createdAt := 0 }],
        transactions := [],
        promotions := [{ id := "p3", title := "P", description := "d",
                         type := "extra_coins", value := 25, isActive := true,
                         startDate := 0, endDate := 100, maxRedemptions := none,
                         currentRedemptions := 0, emoji := "e", createdAt := 0 }],
        promotionRedemptions := [], rewards := [], rewardRedemptions := [],
        adminActions := [] }
      "u3" "p3" "red3" "tx3" 10
      { id := "p3", title := "P", description := "d", type := "extra_coins",
        value := 25, isActive := true, startDate := 0, endDate := 100,
        maxRedemptions := none, currentRedemptions := 0, emoji := "e", createdAt := 0 }
      { id := "u3", email := "c@b.c", username := "c", password := "h",
        role := "user", coinBalance := 7, pointBalance := 11, level := 1,
        createdAt := 0 }
      (by rfl) (by rfl) (by intro r hr; cases hr) (by rfl)
  obtain ⟨hce, hpe⟩ := hec (by rfl)
  exact ⟨pe, ce, u2, s2, heq, hce, hpe, hpb, hcb⟩

/-- Claim C6: a validated top-up credits `⌊amountPaid / 50⌋` points; the
computed points and the coins are exactly the deltas applied to the
balance and the figures on the appended `"purchase"` transaction row. -/
theorem routeTopUp_exchange_rate (s : Store) (adminId userId : String)
    (coins : Int) (amount : ℚ) (txId actId : String) (now : Nat) (u : User)
    (hval : ¬(coins ≤ 0 ∧ amount ≤ 0))
    (hu : getUser s userId = some u) :
    ∃ u2 s2,
      routeTopUp s adminId userId coins amount txId actId now =
        (.ok (⌊amount / 50⌋, u2), s2) ∧
      u2.pointBalance = u.pointBalance + ⌊amount / 50⌋ ∧
      u2.coinBalance = u.coinBalance + coins ∧
      ∃ tx, s2.transactions = s.transactions ++ [tx] ∧
        tx.type = "purchase" ∧
        tx.coinsAdded = coins ∧
        tx.pointsEarned = ⌊amount / 50⌋ ∧
        tx.status = "completed" := by
  have hu' : s.users.find? (fun v => v.id == userId) = some u := hu
  simp only [routeTopUp, if_neg hval, updateUserBalance, getUser, hu', createTransaction]
  exact ⟨_, _, rfl, rfl, rfl, _, rfl, rfl, rfl, rfl, rfl⟩

/-- Witness for claim C6: `amountPaid = 150` yields 3 points and
`amountPaid = 49` yields 0 points, both applied to the balance and the
transaction row. -/
theorem routeTopUp_exchange_rate_witness :
    (∃ u2 s2,
      routeTopUp
          { users := [{ id := "u4", email := "d@b.c", username := "d", password := "h",
                        role := "user", coinBalance := 0, pointBalance := 0, level := 1,
                        createdAt := 0 }],
            transactions := [], promotions := [], promotionRedemptions := [],
            rewards := [], rewardRedemptions := [], adminActions := [] }
          "a1" "u4" 500 150 "t1" "aa1" 0 = (.ok (3, u2), s2) ∧
      u2.pointBalance = 3 ∧ u2.coinBalance = 500) ∧
    (∃ u2 s2,
      routeTopUp
          { users := [{ id := "u4", email := "d@b.c", username := "d", password := "h",
                        role := "user", coinBalance := 0, pointBalance := 0, level := 1,
                        createdAt := 0 }],
            transactions := [], promotions := [], promotionRedemptions := [],
            rewards := [], rewardRedemptions := [], adminActions := [] }
          "a1" "u4" 500 49 "t1" "aa1" 0 = (.ok (0, u2), s2) ∧
      u2.pointBalance = 0 ∧ u2.coinBalance = 500) := by
  have hf150 : (⌊(150 : ℚ) / 50⌋ : Int) = 3 := by norm_num
  have hf49 : (⌊(49 : ℚ) / 50⌋ : Int) = 0 := by norm_num
  constructor
  · obtain ⟨u2, s2, heq, hpb, hcb, -⟩ :=
      routeTopUp_exchange_rate
        { users := [{ id := "u4", email := "d@b.c", username := "d", password := "h",
                      role := "user", coinBalance := 0, pointBalance := 0, level := 1,
                      createdAt := 0 }],
          transactions := [], promotions := [], promotionRedemptions := [],
          rewards := [], rewardRedemptions := [], adminActions := [] }
        "a1" "u4" 500 150 "t1" "aa1" 0
        { id := "u4", email := "d@b.c", username := "d", password := "h",
          role := "user", coinBalance := 0, pointBalance := 0, level := 1,
          createdAt := 0 }
        (by norm_num) (by rfl)
    rw [hf150] at heq hpb
    exact ⟨u2, s2, heq, by rw [hpb]; decide, by rw [hcb]; decide⟩
  · obtain ⟨u2, s2, heq, hpb, hcb, -⟩ :=
      routeTopUp_exchange_rate
        { users := [{ id := "u4", email := "d@b.c", username := "d", password := "h",
                      role := "user", coinBalance := 0, pointBalance := 0, level := 1,
                      createdAt := 0 }],
          transactions := [], promotions := [], promotionRedemptions := [],
          rewards := [], rewardRedemptions := [], adminActions := [] }
        "a1" "u4" 500 49 "t1" "aa1" 0
        { id := "u4", email := "d@b.c", username := "d", password := "h",
          role := "user", coinBalance := 0, pointBalance := 0, level := 1,
          createdAt := 0 }
        (by norm_num) (by rfl)
    rw [hf49] at heq hpb
    exact ⟨u2, s2, heq, by rw [hpb]; decide, by rw [hcb]; decide⟩

/-- Claim C9: the analytics are pure aggregations of the store —
totalRevenue is the sum of `amount` (absent = 0) over purchase rows,
totalTransactions their count, averageTransaction their quotient (0 when
there are none), user analytics partition all users against those with
`coinBalance ≥ 1`, and any store with the same transactions yields
identical sales totals. -/
theorem analytics_pure_aggregation (s : Store) :
    (getSalesAnalytics s).1 = totalRevenueSpec s ∧
    (getSalesAnalytics s).2.1 = purchaseCountSpec s ∧
    (purchaseCountSpec s ≠ 0 →
      (getSalesAnalytics s).2.2 = totalRevenueSpec s / (purchaseCountSpec s : ℚ)) ∧
    (purchaseCountSpec s = 0 → (getSalesAnalytics s).2.2 = 0) ∧
    (getUserAnalytics s).1 = s.users.length ∧
    (getUserAnalytics s).2 = activeUsersSpec s ∧
    (∀ s2 : Store, s2.transactions = s.transactions →
      getSalesAnalytics s2 = getSalesAnalytics s) := by
  refine ⟨?_, rfl, ?_, ?_, rfl, ?_, ?_⟩
  · show (s.transactions.filter _).foldl _ 0 = _
    rw [foldl_add_eq_sum]
    simp [totalRevenueSpec]
  · intro h
    have h' : 0 < (s.transactions.filter (fun t => t.type == "purchase")).length :=
      Nat.pos_of_ne_zero h
    show (if 0 < (s.transactions.filter _).length then _ else _) = _
    rw [if_pos h']
    rw [foldl_add_eq_sum]
    simp [totalRevenueSpec, purchaseCountSpec]
  · intro h
    have h' : ¬ 0 < (s.transactions.filter (fun t => t.type == "purchase")).length := by
      simp only [purchaseCountSpec] at h
      omega
    show (if 0 < (s.transactions.filter _).length then _ else _) = _
    rw [if_neg h']
  · show (s.users.filter _).length = _
    rw [activeUsersSpec, List.countP_eq_length_filter]
  · intro s2 h
    unfold getSalesAnalytics
    rw [h]

/-- Witness for claim C9: a store with one purchase of amount 10 — the
average equals totalRevenue / count, and re-reading the same ledger gives
the same totals. -/
theorem analytics_pure_aggregation_witness :
    purchaseCountSpec
        { users := [], transactions :=
            [{ id := "t1", userId := "u1", type := "purchase", amount := some 10,
               coinsAdded := 500, pointsEarned := 0, description := "d",
               status := "completed", metadata := none, createdAt := 0 }],
          promotions := [], promotionRedemptions := [], rewards := [],
          rewardRedemptions := [], adminActions := [] } ≠ 0 ∧
    (getSalesAnalytics
        { users := [], transactions :=
            [{ id := "t1", userId := "u1", type := "purchase", amount := some 10,
               coinsAdded := 500, pointsEarned := 0, description := "d",
               status := "completed", metadata := none, createdAt := 0 }],
          promotions := [], promotionRedemptions := [], rewards := [],
          rewardRedemptions := [], adminActions := [] }).2.2 =
      totalRevenueSpec
        { users := [], transactions :=
            [{ id := "t1", userId := "u1", type := "purchase", amount := some 10,
               coinsAdded := 500, pointsEarned := 0, description := "d",
               status := "completed", metadata := none, createdAt := 0 }],
          promotions := [], promotionRedemptions := [], rewards := [],
          rewardRedemptions := [], adminActions := [] } /
        (purchaseCountSpec
          { users := [], transactions :=
              [{ id := "t1", userId := "u1", type := "purchase", amount := some 10,
                 coinsAdded := 500, pointsEarned := 0, description := "d",
                 status := "completed", metadata := none, createdAt := 0 }],
            promotions := [], promotionRedemptions := [], rewards := [],
            rewardRedemptions := [], adminActions := [] } : ℚ) := by
  refine ⟨by decide, ?_⟩
  exact (analytics_pure_aggregation
    { users := [], transactions :=
        [{ id := "t1", userId := "u1", type := "purchase", amount := some 10,
           coinsAdded := 500, pointsEarned := 0, description := "d",
           status := "completed", metadata := none, createdAt := 0 }],
      promotions := [], promotionRedemptions := [], rewards := [],
      rewardRedemptions := [], adminActions := [] }).2.2.1 (by decide)

/-- Claim C10: registration passes the caller-supplied role through —
`insertUserSchema` omits balances and level (database defaults 0, 0, 1)
but keeps `role`, so a body carrying role = "admin" creates an admin user,
and an absent role defaults to "user". -/
theorem register_role_passthrough (s : Store) (body : InsertUser)
    (hash : String → String) (freshId : String) (now : Nat)
    (hfree : getUserByEmail s body.email = none) :
    ∃ newUser s2, routeRegister s body hash freshId now = (.ok newUser, s2) ∧
      newUser.role = body.role.getD "user" ∧
      newUser.coinBalance = 0 ∧
      newUser.pointBalance = 0 ∧
      newUser.level = 1 ∧
      s2.users = s.users ++ [newUser] := by
  simp only [routeRegister, hfree, createUser]
  exact ⟨_, _, rfl, rfl, rfl, rfl, rfl, rfl⟩

/-- Witness for claim C10: on an empty store, a body with
role = some "admin" creates a user whose role is "admin"; the same body
with no role creates a "user"; balances start at 0 and level at 1. -/
theorem register_role_passthrough_witness :
    (∃ newUser s2, routeRegister
        { users := [], transactions := [], promotions := [],
          promotionRedemptions := [], rewards := [], rewardRedemptions := [],
          adminActions := [] }
        { email := "x@y.z", username := "x", password := "pw", role := some "admin" }
        (fun p => p) "id1" 0 = (.ok newUser, s2) ∧
      newUser.role = "admin" ∧ newUser.coinBalance = 0 ∧
      newUser.pointBalance = 0 ∧ newUser.level = 1) ∧
    (∃ newUser s2, routeRegister
        { users := [], transactions := [], promotions := [],
          promotionRedemptions := [], rewards := [], rewardRedemptions := [],
          adminActions := [] }
        { email := "x@y.z", username := "x", password := "pw", role := none }
        (fun p => p) "id1" 0 = (.ok newUser, s2) ∧
      newUser.role = "user") := by
  constructor
  · obtain ⟨nu, s2, h1, h2, h3, h4, h5, -⟩ :=
      register_role_passthrough
        { users := [], transactions := [], promotions := [],
          promotionRedemptions := [], rewards := [], rewardRedemptions := [],
          adminActions := [] }
        { email := "x@y.z", username := "x", password := "pw", role := some "admin" }
        (fun p => p) "id1" 0 (by rfl)
    exact ⟨nu, s2, h1, h2, h3, h4, h5⟩
  · obtain ⟨nu, s2, h1, h2, -⟩ :=
      register_role_passthrough
        { users := [], transactions := [], promotions := [],
          promotionRedemptions := [], rewards := [], rewardRedemptions := [],
          adminActions := [] }
        { email := "x@y.z", username := "x", password := "pw", role := none }
        (fun p => p) "id1" 0 (by rfl)
    exact ⟨nu, s2, h1, h2⟩

end ArcadePay
